import Mathlib

/-!
Verification development for the `statemachine` procedural macro
(`src/lib.rs`).  The macro compiles a declarative machine description into a
typed runtime API.  We embed the *generated* runtime operations shallowly:

* the generated per-edge `event` operation (the `transitions_block` of the
  macro, lines 148-236) becomes `eventOp`;
* the generated `init` entry points (lines 270-341) become `initOp`;
* the generated per-state `restore_<state>` procedures (lines 365-437) become
  `restoreState`;
* the generated module-level `restore` dispatcher (lines 573-579) becomes
  `restore`, and `retrieve` (lines 581-585) becomes `retrieve`.

The generated code varies structurally with four compile-time facts about a
declared edge or state: whether the machine declares shared data, whether the
source state declares associated data, whether the target state declares
associated data, and whether the target state carries the `init` flag.  These
appear as `Bool` parameters; the argument-selection helpers (`sharedArgOf`,
`newDataArgOf`, `srcDataArgOf`, `fromArgOf`) mirror the macro's per-edge
argument selection (lines 152-181).

Payload values of every declared Rust type are modelled by one type
parameter `V`; `serde_json::from_value` into a declared type is modelled by a
decoder `V → Option V`.  Lifecycle hooks (`&mut self`, `async`, threaded
`ctx`) are modelled as pure functions of their arguments: neither observer
self-mutation nor the opaque context influences the generated control flow.
Every operation additionally returns the list of hook invocations it
performed, in order, so that call-ordering properties can be stated.
-/

namespace Statemachine

/-- The `from` argument of an `on_enter_<state>` hook: the generated hook takes
a plain `State` tag when the state is not flagged `init`, and an
`Option<State>` when it is (lines 450-454); `optNone` is Rust's `None`,
`optSome s` is `Some(State::s)`, `plain s` is the unwrapped `State::s`. -/
inductive FromArg where
  | plain (s : String)
  | optSome (s : String)
  | optNone
  deriving DecidableEq, BEq

/-- One observer / retriever invocation performed by a generated operation,
recording the hook and the arguments it received.  `Option V` records an
optional argument (`Some`/`None` at the call site) as well as an argument that
the generated signature omits entirely (`none`) or includes (`some v`). -/
inductive HookCall (V : Type) where
  | onInit (id : Option String) (toS : String) (shared stateData : Option V)
  | onTransition (id : String) (fromS toS : String) (shared stateData : Option V)
  | onEnter (state : String) (id : String) (fromA : FromArg) (shared stateData : Option V)
  | onExit (state : String) (id : String) (toS : String) (shared stateData : Option V)
  | onRetrieve (id : String)
  deriving DecidableEq

/-- `true` for the observer lifecycle hooks, `false` for the retriever's
`on_retrieve` store call. -/
def HookCall.isLifecycle {V : Type} : HookCall V → Bool
  | .onRetrieve _ => false
  | _ => true

/-- `InitError` of the generated code (lines 499-503). -/
inductive InitError (E : Type) where
  | EmptyId
  | ObserverError (e : E)
  deriving DecidableEq

/-- `TransitionError` of the generated code (lines 505-508). -/
inductive TransitionError (E : Type) where
  | ObserverError (e : E)
  deriving DecidableEq

/-- `RestoreError` of the generated code (lines 510-516). -/
inductive RestoreError where
  | EmptyData
  | UnexpectedData
  | InvalidData
  | InvalidState
  deriving DecidableEq

/-- `RetrieveError` of the generated code (lines 518-522). -/
inductive RetrieveError (E : Type) where
  | RestoreError (e : RestoreError)
  | RetrieverError (e : E)
  deriving DecidableEq

/-- The `Observer` trait (lines 536-549): one method per hook, modelled as a
pure function of the hook's arguments.  The per-state `on_enter_<state>` and
`on_exit_<state>` families take the state's name as their first argument. -/
structure Observer (V E : Type) where
  onInit : Option String → String → Option V → Option V → Except E (Option String)
  onTransition : String → String → String → Option V → Option V → Except E Unit
  onEnter : String → String → FromArg → Option V → Option V → Except E Unit
  onExit : String → String → String → Option V → Option V → Except E Unit

/-- The trait's default hook bodies: `on_init` passes the supplied id through
unchanged (line 541), every other hook is a no-op returning `Ok(())`. -/
def defaultObserver (V E : Type) : Observer V E where
  onInit := fun id _ _ _ => Except.ok id
  onTransition := fun _ _ _ _ _ => Except.ok ()
  onEnter := fun _ _ _ _ _ => Except.ok ()
  onExit := fun _ _ _ _ _ => Except.ok ()

/-- A generated machine instance (lines 345-363): observer, id, current
per-state value and, when the machine declares one, the shared-data value.
`stateData = some v` models a per-state struct owning `v`; `none` models the
field-less struct of a dataless state.  `shared = none` models the absence of
the shared-data field. -/
structure Inst (V E : Type) where
  observer : Observer V E
  id : String
  stateData : Option V
  shared : Option V

/-- The `Encoded` enum (lines 567-569): a tagged persisted payload. -/
inductive Encoded (V : Type) where
  | Json (v : V)
  deriving DecidableEq

/-- A `Wrapped<Machine>` value (lines 563-565): the state tag that names the
variant together with the instance it wraps. -/
structure WrappedInst (V E : Type) where
  stateName : String
  inst : Inst V E

/-- Shared-data argument selection: the macro passes `&self.data` exactly when
the machine declares a shared-data type (lines 158-175, 184-227). -/
def sharedArgOf {V E : Type} (sharedDecl : Bool) (inst : Inst V E) : Option V :=
  if sharedDecl then inst.shared else none

/-- New-state-data argument selection: the generated operation takes and passes
a `data` value exactly when the target state declares associated data
(lines 155, 183-205). -/
def newDataArgOf {V : Type} (nextHasData : Bool) (newData : V) : Option V :=
  if nextHasData then some newData else none

/-- Source-state-data argument selection for `on_exit_<source>`: the macro
passes `&self.state.data` exactly when the source state declares associated
data (lines 159-174). -/
def srcDataArgOf {V E : Type} (srcHasData : Bool) (inst : Inst V E) : Option V :=
  if srcHasData then inst.stateData else none

/-- The `from` argument handed to `on_enter_<next_state>` on a transition:
`Some(State::source)` when the target is flagged `init`, the plain tag
otherwise (lines 177-181). -/
def fromArgOf (nextIsInit : Bool) (srcName : String) : FromArg :=
  if nextIsInit then FromArg.optSome srcName else FromArg.plain srcName

/-- The `on_transition` invocation record of a generated event operation. -/
def transCallOf {V E : Type} (sharedDecl nextHasData : Bool) (srcName nextName : String)
    (inst : Inst V E) (newData : V) : HookCall V :=
  HookCall.onTransition inst.id srcName nextName (sharedArgOf sharedDecl inst)
    (newDataArgOf nextHasData newData)

/-- The `on_exit_<source>` invocation record of a generated event operation. -/
def exitCallOf {V E : Type} (sharedDecl srcHasData : Bool) (srcName nextName : String)
    (inst : Inst V E) : HookCall V :=
  HookCall.onExit srcName inst.id nextName (sharedArgOf sharedDecl inst)
    (srcDataArgOf srcHasData inst)

/-- The `on_enter_<next_state>` invocation record of a generated event
operation. -/
def enterCallOf {V E : Type} (sharedDecl nextHasData nextIsInit : Bool)
    (srcName nextName : String) (inst : Inst V E) (newData : V) : HookCall V :=
  HookCall.onEnter nextName inst.id (fromArgOf nextIsInit srcName)
    (sharedArgOf sharedDecl inst) (newDataArgOf nextHasData newData)

/-- The generated per-edge event operation (lines 148-236).  For the edge
`(source_state, event) → next_state` of a machine, the macro emits a method on
the source state's instance type that invokes `on_transition`, then
`on_exit_<source>`, then `on_enter_<next>`, short-circuiting on the first
error (each `?` wraps the error as `TransitionError::ObserverError`), and
finally constructs the next state's instance from the same observer, the same
id, the new per-state value and the carried-over shared data.  The first
component of the result lists the hook invocations performed, in order. -/
def eventOp {V E : Type} (sharedDecl srcHasData nextHasData nextIsInit : Bool)
    (srcName nextName : String) (inst : Inst V E) (newData : V) :
    List (HookCall V) × Except (TransitionError E) (Inst V E) :=
  match inst.observer.onTransition inst.id srcName nextName
      (sharedArgOf sharedDecl inst) (newDataArgOf nextHasData newData) with
  | .error e =>
    ([transCallOf sharedDecl nextHasData srcName nextName inst newData],
      .error (TransitionError.ObserverError e))
  | .ok _ =>
    match inst.observer.onExit srcName inst.id nextName
        (sharedArgOf sharedDecl inst) (srcDataArgOf srcHasData inst) with
    | .error e =>
      ([transCallOf sharedDecl nextHasData srcName nextName inst newData,
        exitCallOf sharedDecl srcHasData srcName nextName inst],
        .error (TransitionError.ObserverError e))
    | .ok _ =>
      match inst.observer.onEnter nextName inst.id (fromArgOf nextIsInit srcName)
          (sharedArgOf sharedDecl inst) (newDataArgOf nextHasData newData) with
      | .error e =>
        ([transCallOf sharedDecl nextHasData srcName nextName inst newData,
          exitCallOf sharedDecl srcHasData srcName nextName inst,
          enterCallOf sharedDecl nextHasData nextIsInit srcName nextName inst newData],
          .error (TransitionError.ObserverError e))
      | .ok _ =>
        ([transCallOf sharedDecl nextHasData srcName nextName inst newData,
          exitCallOf sharedDecl srcHasData srcName nextName inst,
          enterCallOf sharedDecl nextHasData nextIsInit srcName nextName inst newData],
          .ok ⟨inst.observer, inst.id, newDataArgOf nextHasData newData, inst.shared⟩)

/-- The generated `init` entry point of an initial state (lines 270-341).
`on_init` is invoked with the caller-supplied optional id and the declared
payloads; its returned `Option<String>` is the id actually used, `None`
failing with `InitError::EmptyId`.  Then the state's own `on_enter` hook runs
with `from = None`, and the instance is constructed.  `sharedArg` and
`stateArg` stand for the `data`/`state_data` parameters that the generated
signature includes exactly when declared. -/
def initOp {V E : Type} (ob : Observer V E) (sharedDecl stateHasData : Bool)
    (stateName : String) (id? : Option String) (sharedArg stateArg : V) :
    List (HookCall V) × Except (InitError E) (Inst V E) :=
  let iShared : Option V := if sharedDecl then some sharedArg else none
  let iState : Option V := if stateHasData then some stateArg else none
  match ob.onInit id? stateName iShared iState with
  | .error e =>
    ([HookCall.onInit id? stateName iShared iState], .error (InitError.ObserverError e))
  | .ok none =>
    ([HookCall.onInit id? stateName iShared iState], .error InitError.EmptyId)
  | .ok (some id) =>
    match ob.onEnter stateName id FromArg.optNone iShared iState with
    | .error e =>
      ([HookCall.onInit id? stateName iShared iState,
        HookCall.onEnter stateName id FromArg.optNone iShared iState],
        .error (InitError.ObserverError e))
    | .ok _ =>
      ([HookCall.onInit id? stateName iShared iState,
        HookCall.onEnter stateName id FromArg.optNone iShared iState],
        .ok ⟨ob, id, iState, iShared⟩)

/-- The generated per-state `restore_<state>` procedure (lines 365-437).  The
macro emits one of four bodies keyed by whether the machine declares shared
data and whether the state declares associated data; `decShared`/`decState`
model `serde_json::from_value` into the respective declared types.  No hook is
ever invoked (the trace component is always empty). -/
def restoreState {V E : Type} (sharedDecl stateHasData : Bool)
    (decShared decState : V → Option V) (ob : Observer V E) (stateName id : String)
    (sharedEnc stateEnc : Option (Encoded V)) :
    List (HookCall V) × Except RestoreError (WrappedInst V E) :=
  match sharedDecl, stateHasData with
  | true, true =>
    match sharedEnc with
    | none => ([], .error RestoreError.EmptyData)
    | some (.Json sv) =>
      match decShared sv with
      | none => ([], .error RestoreError.InvalidData)
      | some sharedD =>
        match stateEnc with
        | none => ([], .error RestoreError.EmptyData)
        | some (.Json tv) =>
          match decState tv with
          | none => ([], .error RestoreError.InvalidData)
          | some stateD => ([], .ok ⟨stateName, ⟨ob, id, some stateD, some sharedD⟩⟩)
  | true, false =>
    match sharedEnc with
    | none => ([], .error RestoreError.EmptyData)
    | some (.Json sv) =>
      match decShared sv with
      | none => ([], .error RestoreError.InvalidData)
      | some sharedD =>
        if stateEnc.isSome then ([], .error RestoreError.UnexpectedData)
        else ([], .ok ⟨stateName, ⟨ob, id, none, some sharedD⟩⟩)
  | false, true =>
    if sharedEnc.isSome then ([], .error RestoreError.UnexpectedData)
    else
      match stateEnc with
      | none => ([], .error RestoreError.EmptyData)
      | some (.Json tv) =>
        match decState tv with
        | none => ([], .error RestoreError.InvalidData)
        | some stateD => ([], .ok ⟨stateName, ⟨ob, id, some stateD, none⟩⟩)
  | false, false =>
    if sharedEnc.isSome then ([], .error RestoreError.UnexpectedData)
    else if stateEnc.isSome then ([], .error RestoreError.UnexpectedData)
    else ([], .ok ⟨stateName, ⟨ob, id, none, none⟩⟩)

/-- A declared state as the macro's semantic model sees it: the `init` flag,
the name, whether an associated data type was declared, and the decoder for
that type. -/
structure StateSpec (V : Type) where
  isInit : Bool
  name : String
  hasData : Bool
  decState : V → Option V

/-- A declared machine: whether a shared-data type was declared (with its
decoder) and the declared states in declaration order. -/
structure MachineSpec (V : Type) where
  sharedDecl : Bool
  decShared : V → Option V
  states : List (StateSpec V)

/-- Membership of a name in the macro's `init_states` set (lines 97-106). -/
def MachineSpec.isInitState {V : Type} (m : MachineSpec V) (name : String) : Bool :=
  m.states.any (fun s => s.isInit && s.name == name)

/-- Whether the macro's `state_data_types` map has an entry for a name
(lines 97-106). -/
def MachineSpec.hasDataState {V : Type} (m : MachineSpec V) (name : String) : Bool :=
  m.states.any (fun s => s.hasData && s.name == name)

/-- The generated event operation for a declared edge of machine `m`, with the
four structural facts computed from the declaration exactly as the macro does
(shared-data type of the machine, `state_data_types` entries of the two
states, `init_states` membership of the target). -/
def edgeEventOp {V E : Type} (m : MachineSpec V) (srcName nextName : String)
    (inst : Inst V E) (newData : V) :
    List (HookCall V) × Except (TransitionError E) (Inst V E) :=
  eventOp m.sharedDecl (m.hasDataState srcName) (m.hasDataState nextName)
    (m.isInitState nextName) srcName nextName inst newData

/-- The generated module-level `restore` dispatcher (lines 573-579): the state
name is matched exactly and case-sensitively against the declared state names
in declaration order; a match delegates to that state's `restore_<state>`
procedure, no match fails with `RestoreError::InvalidState`. -/
def restore {V E : Type} (m : MachineSpec V) (ob : Observer V E) (id stateString : String)
    (dataEnc stateDataEnc : Option (Encoded V)) :
    List (HookCall V) × Except RestoreError (WrappedInst V E) :=
  match m.states.find? (fun s => s.name == stateString) with
  | some s =>
    restoreState m.sharedDecl s.hasData m.decShared s.decState ob s.name id dataEnc stateDataEnc
  | none => ([], .error RestoreError.InvalidState)

/-- The `Retriever` trait (lines 551-556): `on_retrieve` fetches the persisted
(state name, encoded shared payload, encoded state payload) for an id. -/
structure Retriever (V R : Type) where
  onRetrieve : String → Except R (String × Option (Encoded V) × Option (Encoded V))

/-- The generated `retrieve` composition (lines 581-585): call `on_retrieve`,
wrap its failure as `RetrieveError::RetrieverError`, otherwise forward to the
dispatcher, wrapping a restore failure as `RetrieveError::RestoreError`.  In
the generated code one value implements both `Retriever` and `Observer`; the
two capabilities are passed separately here. -/
def retrieve {V E R : Type} (m : MachineSpec V) (ret : Retriever V R) (ob : Observer V E)
    (id : String) : List (HookCall V) × Except (RetrieveError R) (WrappedInst V E) :=
  match ret.onRetrieve id with
  | .error e => ([HookCall.onRetrieve id], .error (RetrieveError.RetrieverError e))
  | .ok (stateString, maybeData, maybeStateData) =>
    match restore m ob id stateString maybeData maybeStateData with
    | (tr, .error e) => (HookCall.onRetrieve id :: tr, .error (RetrieveError.RestoreError e))
    | (tr, .ok w) => (HookCall.onRetrieve id :: tr, .ok w)

/-- Decode of one `Encoded` payload with a given decoder: the `match` on
`Encoded::Json` inside each generated restore function. -/
def decodeEnc {V : Type} (dec : V → Option V) : Encoded V → Option V
  | .Json v => dec v

/-- Modelled from the spec wording of the amended claim C4: the decode policy
for one payload slot.  If the slot is declared, an absent payload is
EmptyData and an undecodable one InvalidData; if undeclared, a supplied
payload is UnexpectedData. -/
def payloadStage {V : Type} (declared : Bool) (dec : V → Option V)
    (enc : Option (Encoded V)) : Except RestoreError (Option V) :=
  if declared then
    match enc with
    | none => Except.error RestoreError.EmptyData
    | some e =>
      match decodeEnc dec e with
      | none => Except.error RestoreError.InvalidData
      | some d => Except.ok (some d)
  else
    match enc with
    | some _ => Except.error RestoreError.UnexpectedData
    | none => Except.ok none

/-- Modelled from the spec wording of the amended claim C4: validate the
shared payload first, then the per-state payload; on success materialize the
wrapped instance with the decoded fields. -/
def restorePolicy {V E : Type} (sharedDecl stateHasData : Bool)
    (decShared decState : V → Option V) (ob : Observer V E) (stateName id : String)
    (sharedEnc stateEnc : Option (Encoded V)) : Except RestoreError (WrappedInst V E) :=
  match payloadStage sharedDecl decShared sharedEnc with
  | .error e => .error e
  | .ok sh =>
    match payloadStage stateHasData decState stateEnc with
    | .error e => .error e
    | .ok sd => .ok ⟨stateName, ⟨ob, id, sd, sh⟩⟩

/-- A concrete observer whose `on_init` discards the supplied id and returns
no id; every other hook is the default no-op. -/
def dropIdObs : Observer Nat Unit where
  onInit := fun _ _ _ _ => Except.ok none
  onTransition := fun _ _ _ _ _ => Except.ok ()
  onEnter := fun _ _ _ _ _ => Except.ok ()
  onExit := fun _ _ _ _ _ => Except.ok ()

/-- A concrete machine for evaluations: no shared data, one dataless initial
state named "A". -/
def m0 : MachineSpec Nat :=
  { sharedDecl := false, decShared := fun _ => none,
    states := [{ isInit := true, name := "A", hasData := false, decState := fun _ => none }] }

/-- A concrete machine for evaluations: no shared data, dataless states "A"
(not initial) and "B" (initial). -/
def m1 : MachineSpec Nat :=
  { sharedDecl := false, decShared := fun _ => none,
    states := [{ isInit := false, name := "A", hasData := false, decState := fun _ => none },
               { isInit := true, name := "B", hasData := false, decState := fun _ => none }] }

/-- Checks one recorded hook call: if it is an on_enter invocation its `from`
argument equals the given one; any other hook passes vacuously. -/
def enterFromIs {V : Type} (fa0 : FromArg) : HookCall V → Bool
  | HookCall.onEnter _ _ fa _ _ => decide (fa = fa0)
  | _ => true

/-- Claim C1: for every machine specification and declared edge, the generated
event operation invokes the observer hooks in the strict order on_transition,
then on_exit_<source>, then on_enter_<next>; if any hook returns an error the
call stops immediately (no later hook is invoked and no new instance is
constructed) and returns that error wrapped as TransitionError::ObserverError. -/
theorem eventOp_hook_order_short_circuit (V E : Type)
    (sharedDecl srcHasData nextHasData nextIsInit : Bool)
    (srcName nextName : String) (inst : Inst V E) (newData : V) :
    ((eventOp sharedDecl srcHasData nextHasData nextIsInit srcName nextName inst newData).1 =
        [transCallOf sharedDecl nextHasData srcName nextName inst newData] ∨
      (eventOp sharedDecl srcHasData nextHasData nextIsInit srcName nextName inst newData).1 =
        [transCallOf sharedDecl nextHasData srcName nextName inst newData,
         exitCallOf sharedDecl srcHasData srcName nextName inst] ∨
      (eventOp sharedDecl srcHasData nextHasData nextIsInit srcName nextName inst newData).1 =
        [transCallOf sharedDecl nextHasData srcName nextName inst newData,
         exitCallOf sharedDecl srcHasData srcName nextName inst,
         enterCallOf sharedDecl nextHasData nextIsInit srcName nextName inst newData]) ∧
    (∀ e, inst.observer.onTransition inst.id srcName nextName
        (sharedArgOf sharedDecl inst) (newDataArgOf nextHasData newData) = Except.error e →
      eventOp sharedDecl srcHasData nextHasData nextIsInit srcName nextName inst newData =
        ([transCallOf sharedDecl nextHasData srcName nextName inst newData],
         Except.error (TransitionError.ObserverError e))) ∧
    (∀ e, inst.observer.onTransition inst.id srcName nextName
        (sharedArgOf sharedDecl inst) (newDataArgOf nextHasData newData) = Except.ok () →
      inst.observer.onExit srcName inst.id nextName
        (sharedArgOf sharedDecl inst) (srcDataArgOf srcHasData inst) = Except.error e →
      eventOp sharedDecl srcHasData nextHasData nextIsInit srcName nextName inst newData =
        ([transCallOf sharedDecl nextHasData srcName nextName inst newData,
          exitCallOf sharedDecl srcHasData srcName nextName inst],
         Except.error (TransitionError.ObserverError e))) ∧
    (∀ e, inst.observer.onTransition inst.id srcName nextName
        (sharedArgOf sharedDecl inst) (newDataArgOf nextHasData newData) = Except.ok () →
      inst.observer.onExit srcName inst.id nextName
        (sharedArgOf sharedDecl inst) (srcDataArgOf srcHasData inst) = Except.ok () →
      inst.observer.onEnter nextName inst.id (fromArgOf nextIsInit srcName)
        (sharedArgOf sharedDecl inst) (newDataArgOf nextHasData newData) = Except.error e →
      eventOp sharedDecl srcHasData nextHasData nextIsInit srcName nextName inst newData =
        ([transCallOf sharedDecl nextHasData srcName nextName inst newData,
          exitCallOf sharedDecl srcHasData srcName nextName inst,
          enterCallOf sharedDecl nextHasData nextIsInit srcName nextName inst newData],
         Except.error (TransitionError.ObserverError e))) ∧
    (∀ inst2, (eventOp sharedDecl srcHasData nextHasData nextIsInit
        srcName nextName inst newData).2 = Except.ok inst2 →
      (eventOp sharedDecl srcHasData nextHasData nextIsInit srcName nextName inst newData).1 =
        [transCallOf sharedDecl nextHasData srcName nextName inst newData,
         exitCallOf sharedDecl srcHasData srcName nextName inst,
         enterCallOf sharedDecl nextHasData nextIsInit srcName nextName inst newData]) := by
  cases h1 : inst.observer.onTransition inst.id srcName nextName
      (sharedArgOf sharedDecl inst) (newDataArgOf nextHasData newData) with
  | error e => simp [eventOp, h1]
  | ok u =>
    cases u
    cases h2 : inst.observer.onExit srcName inst.id nextName
        (sharedArgOf sharedDecl inst) (srcDataArgOf srcHasData inst) with
    | error e => simp [eventOp, h1, h2]
    | ok u =>
      cases u
      cases h3 : inst.observer.onEnter nextName inst.id (fromArgOf nextIsInit srcName)
          (sharedArgOf sharedDecl inst) (newDataArgOf nextHasData newData) with
      | error e => simp [eventOp, h1, h2, h3]
      | ok u =>
        cases u
        simp [eventOp, h1, h2, h3]

/-- Witness for the claim C1 theorem: a successful transition of a concrete
machine performs exactly the three hook calls, in order. -/
theorem eventOp_hook_order_short_circuit_witness :
    (eventOp true true true true "A" "B"
        (Inst.mk (defaultObserver Nat Unit) "i" (some 1) (some 2)) 3).1 =
      [transCallOf true true "A" "B" (Inst.mk (defaultObserver Nat Unit) "i" (some 1) (some 2)) 3,
       exitCallOf true true "A" "B" (Inst.mk (defaultObserver Nat Unit) "i" (some 1) (some 2)),
       enterCallOf true true true "A" "B"
         (Inst.mk (defaultObserver Nat Unit) "i" (some 1) (some 2)) 3] :=
  (eventOp_hook_order_short_circuit Nat Unit true true true true "A" "B"
      (Inst.mk (defaultObserver Nat Unit) "i" (some 1) (some 2)) 3).2.2.2.2
    (Inst.mk (defaultObserver Nat Unit) "i" (some 3) (some 2)) rfl

/-- Claim C2 is refuted at this input: the source state "A" declares associated
data (holding 5 here) while the machine declares no shared data and the target
"B" declares no data; the claim requires on_transition to receive the source
state's pre-transition data, but the recorded on_transition invocation carries
None for both optional payload arguments — the generated code never passes the
source state's data to on_transition. -/
theorem onTransition_args_counterexample :
    (eventOp false true false false "A" "B"
        (Inst.mk (defaultObserver Nat Unit) "i" (some 5) none) 0).1.head? =
      some (HookCall.onTransition "i" "A" "B" none none) := rfl

/-- Claim C2 amended: for every declared edge the generated event operation
passes on_transition the source and target state tags plus the shared-data
value iff the machine declares shared data, and the new state's data iff
next_state declares data; the source state's pre-transition associated data is
not passed to on_transition (it is passed to on_exit_<source> instead). -/
theorem onTransition_args (V E : Type) (sharedDecl srcHasData nextHasData nextIsInit : Bool)
    (srcName nextName : String) (inst : Inst V E) (newData : V)
    (hsh : inst.shared.isSome = sharedDecl) :
    (eventOp sharedDecl srcHasData nextHasData nextIsInit srcName nextName inst newData).1.head? =
      some (HookCall.onTransition inst.id srcName nextName inst.shared
        (if nextHasData then some newData else none)) := by
  have harg : sharedArgOf sharedDecl inst = inst.shared := by
    cases sharedDecl with
    | true => rfl
    | false =>
      cases hx : inst.shared with
      | none => simp [sharedArgOf]
      | some v => rw [hx] at hsh; simp at hsh
  have hhead : (eventOp sharedDecl srcHasData nextHasData nextIsInit
      srcName nextName inst newData).1.head? =
      some (transCallOf sharedDecl nextHasData srcName nextName inst newData) := by
    cases h1 : inst.observer.onTransition inst.id srcName nextName
        (sharedArgOf sharedDecl inst) (newDataArgOf nextHasData newData) with
    | error e => simp [eventOp, h1]
    | ok u =>
      cases u
      cases h2 : inst.observer.onExit srcName inst.id nextName
          (sharedArgOf sharedDecl inst) (srcDataArgOf srcHasData inst) with
      | error e => simp [eventOp, h1, h2]
      | ok u =>
        cases u
        cases h3 : inst.observer.onEnter nextName inst.id (fromArgOf nextIsInit srcName)
            (sharedArgOf sharedDecl inst) (newDataArgOf nextHasData newData) with
        | error e => simp [eventOp, h1, h2, h3]
        | ok u =>
          cases u
          simp [eventOp, h1, h2, h3]
  rw [hhead]
  simp [transCallOf, newDataArgOf, harg]

/-- Witness for the claim C2 amended theorem at a concrete edge of a machine
with shared data: on_transition receives the shared value and the new data. -/
theorem onTransition_args_witness :
    (eventOp true false true false "A" "B"
        (Inst.mk (defaultObserver Nat Unit) "i" none (some 7)) 9).1.head? =
      some (HookCall.onTransition "i" "A" "B" (some 7)
        (if true then some 9 else none)) :=
  onTransition_args Nat Unit true false true false "A" "B"
    (Inst.mk (defaultObserver Nat Unit) "i" none (some 7)) 9 rfl

/-- Claim C3 is refuted at this input: the caller supplies the id "a" (not
absent), but with an observer whose on_init returns no id, init still fails
with InitError::EmptyId — the generated code tests only the id returned by
on_init, never falling back to the caller-supplied one. -/
theorem init_emptyId_counterexample :
    (initOp dropIdObs false false "S" (some "a") 0 0).2 =
      Except.error InitError.EmptyId := rfl

/-- Claim C3 amended: the generated init fails with InitError::EmptyId exactly
when on_init returns no id (with the trait's default on_init, which passes the
caller-supplied id through, this is exactly when the caller-supplied id is
absent); on success the constructed instance's id equals the id on_init
returned. -/
theorem init_id_spec (V E : Type) (ob : Observer V E) (sharedDecl stateHasData : Bool)
    (stateName : String) (id? : Option String) (sv dv : V) :
    ((initOp ob sharedDecl stateHasData stateName id? sv dv).2 =
        Except.error InitError.EmptyId ↔
      ob.onInit id? stateName (if sharedDecl then some sv else none)
        (if stateHasData then some dv else none) = Except.ok none) ∧
    (∀ i inst2, ob.onInit id? stateName (if sharedDecl then some sv else none)
        (if stateHasData then some dv else none) = Except.ok (some i) →
      (initOp ob sharedDecl stateHasData stateName id? sv dv).2 = Except.ok inst2 →
      inst2.id = i) ∧
    ((initOp (defaultObserver V E) sharedDecl stateHasData stateName id? sv dv).2 =
        Except.error InitError.EmptyId ↔ id? = none) := by
  refine ⟨?_, ?_, ?_⟩
  · cases h1 : ob.onInit id? stateName (if sharedDecl then some sv else none)
        (if stateHasData then some dv else none) with
    | error e => simp [initOp, h1]
    | ok o =>
      cases o with
      | none => simp [initOp, h1]
      | some i =>
        cases h2 : ob.onEnter stateName i FromArg.optNone
            (if sharedDecl then some sv else none)
            (if stateHasData then some dv else none) with
        | error e => simp [initOp, h1, h2]
        | ok u =>
          cases u
          simp [initOp, h1, h2]
  · intro i inst2 h1 h2
    cases h3 : ob.onEnter stateName i FromArg.optNone
        (if sharedDecl then some sv else none)
        (if stateHasData then some dv else none) with
    | error e => simp [initOp, h1, h3] at h2
    | ok u =>
      cases u
      simp [initOp, h1, h3] at h2
      cases h2
      rfl
  · cases id? with
    | none => simp [initOp, defaultObserver]
    | some i => simp [initOp, defaultObserver]

/-- Witness for the claim C3 amended theorem: with the default observer and no
caller-supplied id, init fails with EmptyId. -/
theorem init_id_spec_witness :
    (initOp (defaultObserver Nat Unit) false false "S" none 0 0).2 =
      Except.error InitError.EmptyId :=
  (init_id_spec Nat Unit (defaultObserver Nat Unit) false false "S" none 0 0).2.2.mpr rfl

/-- Helper: what the one-slot decode policy yields on success. -/
theorem payloadStage_ok {V : Type} (declared : Bool) (dec : V → Option V)
    (enc : Option (Encoded V)) (x : Option V)
    (h : payloadStage declared dec enc = Except.ok x) :
    x = if declared then enc.bind (decodeEnc dec) else none := by
  cases declared with
  | true =>
    rcases enc with _ | ⟨⟨v⟩⟩
    · simp [payloadStage] at h
    · cases hd : dec v with
      | none => simp [payloadStage, decodeEnc, hd] at h
      | some d =>
        simp [payloadStage, decodeEnc, hd] at h
        simp [decodeEnc, hd, h]
  | false =>
    rcases enc with _ | ⟨⟨v⟩⟩
    · simp [payloadStage] at h
      simp [h]
    · simp [payloadStage] at h

/-- Helper: each generated restore function performs no hook call and its
result agrees pointwise with the ordered decode policy. -/
theorem restoreState_eq {V E : Type} (sharedDecl stateHasData : Bool)
    (decShared decState : V → Option V) (ob : Observer V E) (stateName id : String)
    (se ste : Option (Encoded V)) :
    restoreState sharedDecl stateHasData decShared decState ob stateName id se ste =
      ([], restorePolicy sharedDecl stateHasData decShared decState ob stateName id se ste) := by
  cases sharedDecl with
  | true =>
    cases stateHasData with
    | true =>
      rcases se with _ | ⟨⟨sv⟩⟩
      · rfl
      · cases hs : decShared sv with
        | none => simp [restoreState, restorePolicy, payloadStage, decodeEnc, hs]
        | some d =>
          rcases ste with _ | ⟨⟨tv⟩⟩
          · simp [restoreState, restorePolicy, payloadStage, decodeEnc, hs]
          · cases ht : decState tv with
            | none => simp [restoreState, restorePolicy, payloadStage, decodeEnc, hs, ht]
            | some d2 => simp [restoreState, restorePolicy, payloadStage, decodeEnc, hs, ht]
    | false =>
      rcases se with _ | ⟨⟨sv⟩⟩
      · rfl
      · cases hs : decShared sv with
        | none => simp [restoreState, restorePolicy, payloadStage, decodeEnc, hs]
        | some d =>
          rcases ste with _ | ⟨⟨tv⟩⟩ <;>
            simp [restoreState, restorePolicy, payloadStage, decodeEnc, hs]
  | false =>
    cases stateHasData with
    | true =>
      rcases se with _ | ⟨⟨sv⟩⟩
      · rcases ste with _ | ⟨⟨tv⟩⟩
        · rfl
        · cases ht : decState tv with
          | none => simp [restoreState, restorePolicy, payloadStage, decodeEnc, ht]
          | some d => simp [restoreState, restorePolicy, payloadStage, decodeEnc, ht]
      · simp [restoreState, restorePolicy, payloadStage, decodeEnc]
    | false =>
      rcases se with _ | ⟨⟨sv⟩⟩ <;> rcases ste with _ | ⟨⟨tv⟩⟩ <;>
        simp [restoreState, restorePolicy, payloadStage, decodeEnc]

/-- Claim C4 is refuted at this input: state "A" requires both the shared and
the per-state payload; the per-state payload is absent, for which the claim
requires EmptyData, but the shared payload is present and undecodable and the
generated restore function returns InvalidData — the failure cases are decided
in shared-first order, not independently as the claim states them. -/
theorem restore_order_counterexample :
    (restoreState true true (fun _ => (none : Option Nat)) (fun _ => none)
        (defaultObserver Nat Unit) "A" "i" (some (Encoded.Json 0)) none).2 =
      Except.error RestoreError.InvalidData := rfl

/-- Claim C4 amended: restore_<state> applies its checks in a fixed order —
the shared payload first (declared: absent fails EmptyData, undecodable fails
InvalidData; undeclared: supplied fails UnexpectedData), then the per-state
payload likewise — and when no check fails it succeeds, producing a wrapped
instance in that state whose decoded fields exactly equal the decoded input
payloads. -/
theorem restoreState_policy (V E : Type) (sharedDecl stateHasData : Bool)
    (decShared decState : V → Option V) (ob : Observer V E) (stateName id : String)
    (se ste : Option (Encoded V)) :
    ((restoreState sharedDecl stateHasData decShared decState ob stateName id se ste).2 =
      restorePolicy sharedDecl stateHasData decShared decState ob stateName id se ste) ∧
    (∀ w, (restoreState sharedDecl stateHasData decShared decState
        ob stateName id se ste).2 = Except.ok w →
      w.stateName = stateName ∧ w.inst.observer = ob ∧ w.inst.id = id ∧
        w.inst.shared = (if sharedDecl then se.bind (decodeEnc decShared) else none) ∧
        w.inst.stateData = (if stateHasData then ste.bind (decodeEnc decState) else none)) := by
  have he := restoreState_eq sharedDecl stateHasData decShared decState ob stateName id se ste
  constructor
  · rw [he]
  · intro w hw
    rw [he] at hw
    cases h1 : payloadStage sharedDecl decShared se with
    | error e => simp [restorePolicy, h1] at hw
    | ok sh =>
      cases h2 : payloadStage stateHasData decState ste with
      | error e => simp [restorePolicy, h1, h2] at hw
      | ok sd =>
        simp [restorePolicy, h1, h2] at hw
        cases hw
        exact ⟨rfl, rfl, rfl,
          (payloadStage_ok sharedDecl decShared se sh h1).symm ▸ rfl,
          (payloadStage_ok stateHasData decState ste sd h2).symm ▸ rfl⟩

/-- Witness for the claim C4 amended theorem: a fully-declared state restored
from decodable payloads succeeds and its shared field is the decoded shared
payload. -/
theorem restoreState_policy_witness :
    ((restoreState true true (fun v => some v) (fun v => some v) (defaultObserver Nat Unit)
        "A" "i" (some (Encoded.Json 1)) (some (Encoded.Json 2))).2 =
      restorePolicy true true (fun v => some v) (fun v => some v) (defaultObserver Nat Unit)
        "A" "i" (some (Encoded.Json 1)) (some (Encoded.Json 2))) ∧
    (WrappedInst.mk "A" (Inst.mk (defaultObserver Nat Unit) "i" (some 2) (some 1))).inst.shared =
      (if true then (some (Encoded.Json 1)).bind (decodeEnc (fun v => some (v : Nat)))
       else none) :=
  ⟨(restoreState_policy Nat Unit true true (fun v => some v) (fun v => some v)
      (defaultObserver Nat Unit) "A" "i" (some (Encoded.Json 1)) (some (Encoded.Json 2))).1,
   ((restoreState_policy Nat Unit true true (fun v => some v) (fun v => some v)
      (defaultObserver Nat Unit) "A" "i" (some (Encoded.Json 1)) (some (Encoded.Json 2))).2
     (WrappedInst.mk "A" (Inst.mk (defaultObserver Nat Unit) "i" (some 2) (some 1)))
     rfl).2.2.2.1⟩

/-- Claim C5: a successful generated event call returns the next state's
instance carrying forward the original instance's observer, id and shared-data
value unchanged, with per-state value exactly the supplied data, or the empty
per-state value when next_state declares no data. -/
theorem eventOp_frame (V E : Type) (sharedDecl srcHasData nextHasData nextIsInit : Bool)
    (srcName nextName : String) (inst : Inst V E) (newData : V) (inst2 : Inst V E)
    (h : (eventOp sharedDecl srcHasData nextHasData nextIsInit
        srcName nextName inst newData).2 = Except.ok inst2) :
    inst2.observer = inst.observer ∧ inst2.id = inst.id ∧ inst2.shared = inst.shared ∧
      inst2.stateData = (if nextHasData then some newData else none) := by
  cases h1 : inst.observer.onTransition inst.id srcName nextName
      (sharedArgOf sharedDecl inst) (newDataArgOf nextHasData newData) with
  | error e => simp [eventOp, h1] at h
  | ok u =>
    cases u
    cases h2 : inst.observer.onExit srcName inst.id nextName
        (sharedArgOf sharedDecl inst) (srcDataArgOf srcHasData inst) with
    | error e => simp [eventOp, h1, h2] at h
    | ok u =>
      cases u
      cases h3 : inst.observer.onEnter nextName inst.id (fromArgOf nextIsInit srcName)
          (sharedArgOf sharedDecl inst) (newDataArgOf nextHasData newData) with
      | error e => simp [eventOp, h1, h2, h3] at h
      | ok u =>
        cases u
        simp [eventOp, h1, h2, h3] at h
        cases h
        exact ⟨rfl, rfl, rfl, by simp [newDataArgOf]⟩

/-- Witness for the claim C5 theorem: a concrete successful transition into a
data-carrying state keeps observer, id and shared data and stores the supplied
value. -/
theorem eventOp_frame_witness :
    (Inst.mk (defaultObserver Nat Unit) "i" (some 4) (some 3)).observer =
        (Inst.mk (defaultObserver Nat Unit) "i" none (some 3)).observer ∧
      (Inst.mk (defaultObserver Nat Unit) "i" (some 4) (some 3)).id =
        (Inst.mk (defaultObserver Nat Unit) "i" none (some 3)).id ∧
      (Inst.mk (defaultObserver Nat Unit) "i" (some 4) (some 3)).shared =
        (Inst.mk (defaultObserver Nat Unit) "i" none (some 3)).shared ∧
      (Inst.mk (defaultObserver Nat Unit) "i" (some 4) (some 3)).stateData =
        (if true then some 4 else none) :=
  eventOp_frame Nat Unit true false true false "A" "B"
    (Inst.mk (defaultObserver Nat Unit) "i" none (some 3)) 4
    (Inst.mk (defaultObserver Nat Unit) "i" (some 4) (some 3)) rfl

/-- Helper: the one-slot decode policy never produces InvalidState. -/
theorem payloadStage_ne_invalidState {V : Type} (declared : Bool) (dec : V → Option V)
    (enc : Option (Encoded V)) :
    payloadStage declared dec enc ≠ Except.error RestoreError.InvalidState := by
  cases declared with
  | true =>
    rcases enc with _ | ⟨⟨v⟩⟩
    · simp [payloadStage]
    · cases hd : dec v <;> simp [payloadStage, decodeEnc, hd]
  | false =>
    rcases enc with _ | ⟨⟨v⟩⟩ <;> simp [payloadStage]

/-- Helper: the ordered decode policy never produces InvalidState. -/
theorem restorePolicy_ne_invalidState {V E : Type} (sharedDecl stateHasData : Bool)
    (decShared decState : V → Option V) (ob : Observer V E) (stateName id : String)
    (se ste : Option (Encoded V)) :
    restorePolicy sharedDecl stateHasData decShared decState ob stateName id se ste ≠
      Except.error RestoreError.InvalidState := by
  intro h
  cases h1 : payloadStage sharedDecl decShared se with
  | error e =>
    simp only [restorePolicy, h1] at h
    injection h with he
    exact payloadStage_ne_invalidState sharedDecl decShared se (he ▸ h1)
  | ok sh =>
    cases h2 : payloadStage stateHasData decState ste with
    | error e =>
      simp only [restorePolicy, h1, h2] at h
      injection h with he
      exact payloadStage_ne_invalidState stateHasData decState ste (he ▸ h2)
    | ok sd =>
      simp only [restorePolicy, h1, h2] at h
      exact Except.noConfusion h

/-- Helper: the instance a successful generated event call constructs. -/
theorem eventOp_ok_fields {V E : Type} (sharedDecl srcHasData nextHasData nextIsInit : Bool)
    (srcName nextName : String) (inst : Inst V E) (newData : V) (inst2 : Inst V E)
    (h : (eventOp sharedDecl srcHasData nextHasData nextIsInit
        srcName nextName inst newData).2 = Except.ok inst2) :
    inst2 = Inst.mk inst.observer inst.id (newDataArgOf nextHasData newData) inst.shared := by
  cases h1 : inst.observer.onTransition inst.id srcName nextName
      (sharedArgOf sharedDecl inst) (newDataArgOf nextHasData newData) with
  | error e => simp [eventOp, h1] at h
  | ok u =>
    cases u
    cases h2 : inst.observer.onExit srcName inst.id nextName
        (sharedArgOf sharedDecl inst) (srcDataArgOf srcHasData inst) with
    | error e => simp [eventOp, h1, h2] at h
    | ok u =>
      cases u
      cases h3 : inst.observer.onEnter nextName inst.id (fromArgOf nextIsInit srcName)
          (sharedArgOf sharedDecl inst) (newDataArgOf nextHasData newData) with
      | error e => simp [eventOp, h1, h2, h3] at h
      | ok u =>
        cases u
        simp [eventOp, h1, h2, h3] at h
        cases h
        rfl

/-- Helper: the instance a successful generated init call constructs, given
the id that on_init produced. -/
theorem initOp_ok_fields {V E : Type} (ob : Observer V E) (sharedDecl stateHasData : Bool)
    (stateName : String) (id? : Option String) (sv dv : V) (i : String) (inst2 : Inst V E)
    (h1 : ob.onInit id? stateName (if sharedDecl then some sv else none)
        (if stateHasData then some dv else none) = Except.ok (some i))
    (h2 : (initOp ob sharedDecl stateHasData stateName id? sv dv).2 = Except.ok inst2) :
    inst2 = Inst.mk ob i (if stateHasData then some dv else none)
      (if sharedDecl then some sv else none) := by
  cases h3 : ob.onEnter stateName i FromArg.optNone
      (if sharedDecl then some sv else none) (if stateHasData then some dv else none) with
  | error e => simp [initOp, h1, h3] at h2
  | ok u =>
    cases u
    simp [initOp, h1, h3] at h2
    cases h2
    rfl

/-- Helper: a successful dispatch restores an instance carrying exactly the
caller-supplied id. -/
theorem restore_ok_id {V E : Type} (m : MachineSpec V) (ob : Observer V E)
    (id stateString : String) (se ste : Option (Encoded V)) (w : WrappedInst V E)
    (h : (restore m ob id stateString se ste).2 = Except.ok w) : w.inst.id = id := by
  cases hf : m.states.find? (fun t => t.name == stateString) with
  | none => simp [restore, hf] at h
  | some s =>
    simp only [restore, hf] at h
    rw [restoreState_eq] at h
    cases h1 : payloadStage m.sharedDecl m.decShared se with
    | error e => simp [restorePolicy, h1] at h
    | ok sh =>
      cases h2 : payloadStage s.hasData s.decState ste with
      | error e => simp [restorePolicy, h1, h2] at h
      | ok sd =>
        simp [restorePolicy, h1, h2] at h
        cases h
        rfl

/-- Claim C6: the per-state restore procedures and the module-level restore
dispatcher invoke no observer lifecycle hook at all, and retrieve performs
exactly its single on_retrieve store call and no lifecycle hook, whether the
calls succeed or fail. -/
theorem restore_no_hooks (V E R : Type) (sharedDecl stateHasData : Bool)
    (decShared decState : V → Option V) (ob : Observer V E) (m : MachineSpec V)
    (ret : Retriever V R) (stateName id stateString : String)
    (se ste : Option (Encoded V)) :
    (restoreState sharedDecl stateHasData decShared decState ob stateName id se ste).1 = [] ∧
    (restore m ob id stateString se ste).1 = [] ∧
    (retrieve m ret ob id).1.all (fun c => !c.isLifecycle) = true := by
  have hrs : ∀ (sd hd : Bool) (ds dt : V → Option V) (sn i : String)
      (a b : Option (Encoded V)),
      (restoreState sd hd ds dt ob sn i a b).1 = [] := by
    intro sd hd ds dt sn i a b
    rw [restoreState_eq]
  have hr : ∀ (i s : String) (a b : Option (Encoded V)), (restore m ob i s a b).1 = [] := by
    intro i s a b
    cases hf : m.states.find? (fun t => t.name == s) with
    | none => simp [restore, hf]
    | some st => simp [restore, hf, hrs]
  refine ⟨hrs sharedDecl stateHasData decShared decState stateName id se ste,
    hr id stateString se ste, ?_⟩
  cases hret : ret.onRetrieve id with
  | error e => simp [retrieve, hret, HookCall.isLifecycle]
  | ok trip =>
    obtain ⟨ss, md, msd⟩ := trip
    cases hres : restore m ob id ss md msd with
    | mk tr rr =>
      have htr : tr = [] := by
        have := hr id ss md msd
        rw [hres] at this
        exact this
      subst htr
      cases rr with
      | error e => simp [retrieve, hret, hres, HookCall.isLifecycle]
      | ok w => simp [retrieve, hret, hres, HookCall.isLifecycle]

/-- Claim C7 is refuted at this input: restore accepts the empty string as the
identifier, unchecked, and succeeds — the constructed instance's id is "",
so not every constructed instance holds a non-empty identifier. -/
theorem nonempty_id_counterexample :
    ((restore m0 (defaultObserver Nat Unit) "" "A" none none).2.map
      (fun w => w.inst.id)) = Except.ok "" := rfl

/-- Claim C7 amended: every constructed instance holds exactly one string
identifier, determined as follows — restore (and hence retrieve) passes the
caller-supplied id through unchecked, a successful transition preserves the
instance's id, and init uses exactly the id returned by on_init — but no
operation checks the identifier for non-emptiness, so it may be empty. -/
theorem instance_id_provenance (V E : Type) (m : MachineSpec V) (ob : Observer V E)
    (sharedDecl srcHasData nextHasData nextIsInit stateHasData : Bool)
    (srcName nextName stateName id stateString : String) (id? : Option String)
    (inst : Inst V E) (newData sv dv : V) (se ste : Option (Encoded V)) :
    (∀ w, (restore m ob id stateString se ste).2 = Except.ok w → w.inst.id = id) ∧
    (∀ inst2, (eventOp sharedDecl srcHasData nextHasData nextIsInit
        srcName nextName inst newData).2 = Except.ok inst2 → inst2.id = inst.id) ∧
    (∀ i inst2, ob.onInit id? stateName (if sharedDecl then some sv else none)
        (if stateHasData then some dv else none) = Except.ok (some i) →
      (initOp ob sharedDecl stateHasData stateName id? sv dv).2 = Except.ok inst2 →
      inst2.id = i) := by
  refine ⟨?_, ?_, ?_⟩
  · intro w hw
    exact restore_ok_id m ob id stateString se ste w hw
  · intro inst2 h
    rw [eventOp_ok_fields sharedDecl srcHasData nextHasData nextIsInit
      srcName nextName inst newData inst2 h]
  · intro i inst2 h1 h2
    rw [initOp_ok_fields ob sharedDecl stateHasData stateName id? sv dv i inst2 h1 h2]

/-- Witness for the claim C7 amended theorem: restoring with id "x" yields an
instance whose id is "x". -/
theorem instance_id_provenance_witness :
    (WrappedInst.mk "A" (Inst.mk (defaultObserver Nat Unit) "x" none none)).inst.id = "x" :=
  (instance_id_provenance Nat Unit m0 (defaultObserver Nat Unit)
      false false false false false "A" "B" "S" "x" "A" none
      (Inst.mk (defaultObserver Nat Unit) "x" none none) 0 0 0 none none).1
    (WrappedInst.mk "A" (Inst.mk (defaultObserver Nat Unit) "x" none none)) rfl

/-- Claim C8: the on_enter hook of a target state receives from = the absent
value (None) when the instance is created via init, and, on an ordinary
transition, the source state's tag — wrapped in the present optional form
exactly when the target state is flagged initial in the machine declaration,
and as the plain tag otherwise. -/
theorem onEnter_from_arg (V E : Type) (m : MachineSpec V) (ob : Observer V E)
    (sharedDecl stateHasData : Bool) (srcName nextName stateName : String)
    (id? : Option String) (sv dv : V) (inst : Inst V E) (newData : V) :
    (initOp ob sharedDecl stateHasData stateName id? sv dv).1.all
      (enterFromIs FromArg.optNone) = true ∧
    (edgeEventOp m srcName nextName inst newData).1.all
      (enterFromIs (if m.isInitState nextName then FromArg.optSome srcName
        else FromArg.plain srcName)) = true := by
  constructor
  · cases h1 : ob.onInit id? stateName (if sharedDecl then some sv else none)
        (if stateHasData then some dv else none) with
    | error e => simp [initOp, h1, enterFromIs]
    | ok o =>
      cases o with
      | none => simp [initOp, h1, enterFromIs]
      | some i =>
        cases h2 : ob.onEnter stateName i FromArg.optNone
            (if sharedDecl then some sv else none)
            (if stateHasData then some dv else none) with
        | error e => simp [initOp, h1, h2, enterFromIs]
        | ok u =>
          cases u
          simp [initOp, h1, h2, enterFromIs]
  · cases h1 : inst.observer.onTransition inst.id srcName nextName
        (sharedArgOf m.sharedDecl inst) (newDataArgOf (m.hasDataState nextName) newData) with
    | error e => simp [edgeEventOp, eventOp, h1, enterFromIs, transCallOf]
    | ok u =>
      cases u
      cases h2 : inst.observer.onExit srcName inst.id nextName
          (sharedArgOf m.sharedDecl inst) (srcDataArgOf (m.hasDataState srcName) inst) with
      | error e =>
        simp [edgeEventOp, eventOp, h1, h2, enterFromIs, transCallOf, exitCallOf]
      | ok u =>
        cases u
        cases h3 : inst.observer.onEnter nextName inst.id
            (if m.isInitState nextName then FromArg.optSome srcName
              else FromArg.plain srcName)
            (sharedArgOf m.sharedDecl inst)
            (newDataArgOf (m.hasDataState nextName) newData) with
        | error e =>
          simp [edgeEventOp, eventOp, h1, h2, h3, enterFromIs, transCallOf, exitCallOf,
            enterCallOf, fromArgOf]
        | ok u =>
          cases u
          simp [edgeEventOp, eventOp, h1, h2, h3, enterFromIs, transCallOf, exitCallOf,
            enterCallOf, fromArgOf]

/-- Claim C9: the restore dispatcher compares the incoming state name exactly
and case-sensitively against each declared state name; it returns
RestoreError::InvalidState iff no declared state bears that name, and
otherwise delegates to the matching state's restore procedure. -/
theorem restore_dispatch (V E : Type) (m : MachineSpec V) (ob : Observer V E)
    (id stateString : String) (se ste : Option (Encoded V)) :
    ((restore m ob id stateString se ste).2 = Except.error RestoreError.InvalidState ↔
      ∀ s ∈ m.states, s.name ≠ stateString) ∧
    (∀ s, m.states.find? (fun t => t.name == stateString) = some s →
      restore m ob id stateString se ste =
        restoreState m.sharedDecl s.hasData m.decShared s.decState ob s.name id se ste) := by
  constructor
  · constructor
    · intro h
      cases hf : m.states.find? (fun t => t.name == stateString) with
      | none =>
        intro s hs
        have hns := List.find?_eq_none.mp hf s hs
        simpa using hns
      | some s =>
        exfalso
        simp only [restore, hf] at h
        rw [restoreState_eq] at h
        simp only at h
        exact restorePolicy_ne_invalidState m.sharedDecl s.hasData m.decShared s.decState
          ob s.name id se ste h
    · intro hall
      have hf : m.states.find? (fun t => t.name == stateString) = none := by
        apply List.find?_eq_none.mpr
        intro s hs
        simpa using hall s hs
      simp [restore, hf]
  · intro s hf
    simp [restore, hf]

/-- Witness for the claim C9 theorem: the lowercase name "b" matches no
declared state of a machine declaring "A" and "B", so restore fails with
InvalidState — the comparison is case-sensitive. -/
theorem restore_dispatch_witness :
    (restore m1 (defaultObserver Nat Unit) "i" "b" none none).2 =
      Except.error RestoreError.InvalidState :=
  (restore_dispatch Nat Unit m1 (defaultObserver Nat Unit) "i" "b" none none).1.mpr
    (by intro s hs; fin_cases hs <;> simp)

/-- Claim C10: when the machine declares shared data, every restore procedure
validates the shared payload before examining the per-state payload: an absent
shared payload fails EmptyData whatever the per-state payload is, and a
present but undecodable shared payload fails InvalidData without the per-state
payload being checked. -/
theorem restore_shared_first (V E : Type) (stateHasData : Bool)
    (decShared decState : V → Option V) (ob : Observer V E) (stateName id : String)
    (ste : Option (Encoded V)) :
    ((restoreState true stateHasData decShared decState ob stateName id none ste).2 =
      Except.error RestoreError.EmptyData) ∧
    (∀ v, decShared v = none →
      (restoreState true stateHasData decShared decState ob stateName id
        (some (Encoded.Json v)) ste).2 = Except.error RestoreError.InvalidData) := by
  constructor
  · cases stateHasData <;> rfl
  · intro v hv
    cases stateHasData <;> simp [restoreState, hv]

/-- Witness for the claim C10 theorem: an undecodable shared payload fails
InvalidData even though the state declares no data and a (stray) per-state
payload was supplied. -/
theorem restore_shared_first_witness :
    (restoreState true false (fun _ => (none : Option Nat)) (fun _ => none)
        (defaultObserver Nat Unit) "A" "i" (some (Encoded.Json 0))
        (some (Encoded.Json 1))).2 = Except.error RestoreError.InvalidData :=
  (restore_shared_first Nat Unit false (fun _ => none) (fun _ => none)
      (defaultObserver Nat Unit) "A" "i" (some (Encoded.Json 1))).2 0 rfl

end Statemachine
